import Mathlib

/-!
Verification of the summarizer pipeline orchestrator.

Shallow embedding of the repository's Python code:
* `poll_transcription` / `poll_transcription_loop` — the bounded poller of
  `app.py` (`poll_transcription`), driven by a stream of remote responses
  (`remote i` is the response to the i-th status request).
* `poll_transcription_fixed` — the unbounded poller of `app_fixed.py`
  (`poll_transcription`), modelled with explicit fuel; `none` means the
  loop is still running after `fuel` iterations.
* `get_results` — the result-listing / extraction pass of `app_fixed.py`.
* `summarize` / `summarize_text` — the two summarization clients; each
  value also carries the number of remote requests issued.
* `start_transcription` / `transcribe_container_submit` — the two job
  submission paths.
* `main_loop` — the orchestration body of `app.py`.
-/

/-- One response observed by `app.py`'s poll loop: either a
`requests.RequestException` (including `raise_for_status`) or a parsed
JSON body with its `status`, `resultsUrls.transcription` and
`error.message` fields (each possibly absent). -/
inductive PollResponse where
  | netError
  | ok (status : Option String) (transcriptionUrl : Option String)
      (errorMessage : Option String)
deriving DecidableEq, Repr

/-- Outcome of `app.py`'s `poll_transcription`: the returned transcript
URL, the `ValueError` for a Succeeded body with no URL, the job-failure
exception with the remote message, or the `TimeoutError` carrying the
configured `max_poll_attempts`. -/
inductive PollResult where
  | transcriptUrl (url : String)
  | noUrlError
  | jobFailed (msg : String)
  | timedOut (maxAttempts : Nat)
deriving DecidableEq, Repr

/-- Trace of one run of the poll loop: its outcome, the number of status
requests issued, and the total simulated `time.sleep` duration. -/
structure PollTrace where
  result : PollResult
  requests : Nat
  sleepTime : Nat
deriving DecidableEq, Repr

/-- `while attempts < config.max_poll_attempts` of `app.py`, as recursion
on the remaining attempt budget.  Each iteration issues one request
(`remote 0`); the continuation sees the rest of the stream shifted by
one.  A `Succeeded` body returns (or raises `ValueError` when the URL is
missing) and a `Failed` body raises, both without sleeping; every other
response — `NotStarted`/`Running`, an unknown status, or a network
error — increments `attempts` and sleeps `poll_interval`. -/
def poll_transcription_loop (interval maxAttempts : Nat)
    (remote : Nat → PollResponse) : Nat → PollTrace
  | 0 => ⟨.timedOut maxAttempts, 0, 0⟩
  | remaining + 1 =>
    match remote 0 with
    | .netError =>
      let t := poll_transcription_loop interval maxAttempts
        (fun i => remote (i + 1)) remaining
      ⟨t.result, t.requests + 1, t.sleepTime + interval⟩
    | .ok st url err =>
      if st = some "Succeeded" then
        match url with
        | some u => ⟨.transcriptUrl u, 1, 0⟩
        | none => ⟨.noUrlError, 1, 0⟩
      else if st = some "Failed" then
        ⟨.jobFailed (err.getD "Unknown error"), 1, 0⟩
      else
        let t := poll_transcription_loop interval maxAttempts
          (fun i => remote (i + 1)) remaining
        ⟨t.result, t.requests + 1, t.sleepTime + interval⟩

/-- `app.py`'s `poll_transcription`, starting from `attempts = 0`. -/
def poll_transcription (remote : Nat → PollResponse)
    (maxAttempts interval : Nat) : PollTrace :=
  poll_transcription_loop interval maxAttempts remote maxAttempts

/-- A response whose observed job status is terminal (`Succeeded` or
`Failed`); network errors carry no status and are not terminal. -/
def isTerminalResponse : PollResponse → Bool
  | .netError => false
  | .ok st _ _ => st = some "Succeeded" || st = some "Failed"

/-- A response on which `app.py`'s loop sleeps and polls again: a network
error, or a body whose status is not terminal. -/
def continuesResponse : PollResponse → Bool
  | .netError => true
  | .ok st _ _ => !(st = some "Succeeded" || st = some "Failed")

/-- One response observed by `app_fixed.py`'s poll loop: the HTTP status
code of the GET plus, for a 200 body, its `status` and
`properties.error.message` fields. -/
structure FixedResponse where
  status : Nat
  jobStatus : Option String
  errorMessage : Option String
deriving DecidableEq, Repr

/-- How `app_fixed.py`'s poll loop ends: it proceeds to `get_results`
on `Succeeded`, raises on `Failed` with the remote message, or raises
at once on any non-200 poll response. -/
inductive FixedOutcome where
  | toResults
  | failed (msg : String)
  | httpError (status : Nat)
deriving DecidableEq, Repr

/-- A terminal observation for the `app_fixed.py` poller: a 200 response
whose body status is `Succeeded` or `Failed`. -/
def isTerminalFixed (r : FixedResponse) : Bool :=
  r.status = 200 && (r.jobStatus = some "Succeeded" || r.jobStatus = some "Failed")

/-- `app_fixed.py`'s `poll_transcription`: `while True`, one GET per
iteration; a non-200 response raises immediately, `Succeeded` exits to
the results fetch, `Failed` raises, and anything else sleeps and
continues.  The loop is unbounded in the source, so it is modelled with
fuel: `none` means the loop is still running after `fuel` iterations.
The `Nat` in the result counts status requests issued. -/
def poll_transcription_fixed (remote : Nat → FixedResponse) :
    Nat → Option (FixedOutcome × Nat)
  | 0 => none
  | fuel + 1 =>
    let r := remote 0
    if r.status ≠ 200 then some (.httpError r.status, 1)
    else if r.jobStatus = some "Succeeded" then some (.toResults, 1)
    else if r.jobStatus = some "Failed" then
      some (.failed (r.errorMessage.getD "Unknown error"), 1)
    else
      (poll_transcription_fixed (fun i => remote (i + 1)) fuel).map
        (fun p => (p.1, p.2 + 1))

/-- One ranked alternative of a recognized phrase (`nBest` entry). -/
structure NBestAlternative where
  display : String
deriving DecidableEq, Repr

/-- One entry of `recognizedPhrases`; the `nBest` key may be absent. -/
structure Phrase where
  nBest : Option (List NBestAlternative)
deriving DecidableEq, Repr

/-- A per-file result document; the `recognizedPhrases` key may be
absent. -/
structure ResultDocument where
  recognizedPhrases : Option (List Phrase)
deriving DecidableEq, Repr

/-- One entry of the files listing (`values`): its `kind`, `name` and
`links.contentUrl` fields, each possibly absent. -/
structure FileEntry where
  kind : Option String
  name : Option String
  contentUrl : Option String
deriving DecidableEq, Repr

/-- Response to a GET of a result file's `contentUrl`. -/
structure FetchResponse where
  status : Nat
  body : ResultDocument
deriving DecidableEq, Repr

/-- The phrase walk of `app_fixed.py`'s `get_results`: `text_parts`
starts empty and, for each phrase whose `nBest` is present and
non-empty, appends `nBest[0].display`. -/
def phraseTexts (ps : List Phrase) : List String :=
  ps.foldl (fun acc p =>
    match p.nBest with
    | some (a :: _) => acc ++ [a.display]
    | _ => acc) []

/-- Python dict assignment `d[k] = v`: replaces the value in place when
the key exists, otherwise appends the pair. -/
def dictInsert : List (String × String) → String → String → List (String × String)
  | [], k, v => [(k, v)]
  | (k₀, v₀) :: rest, k, v =>
    if k₀ = k then (k, v) :: rest else (k₀, v₀) :: dictInsert rest k v

/-- The body of `get_results`' `for file_data in files` loop, acting on
the state (result dict, fetched URLs): entries whose `kind` is not
`Transcription`, or that have no `contentUrl`, are skipped without a
fetch; otherwise the URL is fetched, and a 200 response whose body has
`recognizedPhrases` maps the file name (default `unknown`) to the
space-joined phrase texts, while any other response drops the file
silently. -/
def get_results_step (fetch : String → FetchResponse)
    (st : List (String × String) × List String) (fd : FileEntry) :
    List (String × String) × List String :=
  if fd.kind = some "Transcription" then
    match fd.contentUrl with
    | some u =>
      let r := fetch u
      if r.status = 200 then
        match r.body.recognizedPhrases with
        | some ps =>
          (dictInsert st.1 (fd.name.getD "unknown")
            (String.intercalate " " (phraseTexts ps)), st.2 ++ [u])
        | none => (st.1, st.2 ++ [u])
      else (st.1, st.2 ++ [u])
    | none => st
  else st

/-- `app_fixed.py`'s `get_results`, from the files-listing HTTP status
and `values` onward.  A non-200 listing raises (error carrying the
status code); otherwise the per-file loop runs over `values` starting
from an empty dict, and the mapping is returned.  The second component
records the `contentUrl`s fetched, in order. -/
def get_results (listingStatus : Nat) (values : List FileEntry)
    (fetch : String → FetchResponse) :
    Except Nat (List (String × String)) × List String :=
  if listingStatus ≠ 200 then (.error listingStatus, [])
  else
    let out := values.foldl (get_results_step fetch)
      (([], []) : List (String × String) × List String)
    (.ok out.1, out.2)

/-- Modelled from the spec (section 4.3): the top-ranked display text of
each phrase, phrases with no alternatives skipped.  Used only to compare
the source's extraction against the spec's words. -/
def specTopDisplays (ps : List Phrase) : List String :=
  ps.filterMap (fun p => ((p.nBest.getD []).head?).map NBestAlternative.display)

/-- The submission response seen by both submit paths: HTTP status code,
body text, and the job-location header (absent when the service sent
none). -/
structure SubmitResponse where
  status : Nat
  body : String
  location : Option String
deriving DecidableEq, Repr

/-- How `app.py`'s `start_transcription` fails: `raise_for_status`
raises an HTTPError for any 4xx/5xx status (it carries the response,
hence status and body), and a missing `Location` header raises
`ValueError` with only the fixed message — no status or body. -/
inductive StartError where
  | httpError (status : Nat) (body : String)
  | noJobUrl
deriving DecidableEq, Repr

/-- `app.py`'s `start_transcription` from the POST response onward:
`raise_for_status`, then return the `Location` header or raise
`ValueError` when it is absent. -/
def start_transcription (resp : SubmitResponse) : Except StartError String :=
  if 400 ≤ resp.status then .error (.httpError resp.status resp.body)
  else
    match resp.location with
    | some u => .ok u
    | none => .error .noJobUrl

/-- How `app_fixed.py`'s `transcribe_container` submission fails: a
non-201 status raises an Exception carrying the status and body, and a
201 response without a `location` header crashes with an unclassified
`AttributeError` (`None.split`). -/
inductive ContainerSubmitError where
  | createFailed (status : Nat) (body : String)
  | attributeCrash
deriving DecidableEq, Repr

/-- Python `s.split(sep)[-1]`: the last segment of the split. -/
def lastSegment (s : String) : String :=
  (s.splitOn "/").getLastD s

/-- The submission step of `app_fixed.py`'s `transcribe_container`, from
the POST response onward: require status 201, then take the transcription
id as the last path segment of the `location` header; when the header is
absent, `location.split` raises `AttributeError`. -/
def transcribe_container_submit (resp : SubmitResponse) :
    Except ContainerSubmitError String :=
  if resp.status ≠ 201 then .error (.createFailed resp.status resp.body)
  else
    match resp.location with
    | some loc => .ok (lastSegment loc)
    | none => .error .attributeCrash

/-- One chat message (role/content pair). -/
structure ChatMessage where
  role : String
  content : String
deriving DecidableEq, Repr

/-- The chat-completion request body built by `summarize_text`:
`messages` and `max_tokens` (temperature is fixed at 0.3 in the
source and carried nowhere else). -/
structure ChatRequest where
  messages : List ChatMessage
  max_tokens : Nat
deriving DecidableEq, Repr

/-- The chat-completion HTTP response: status code, the
`choices[0].message.content` field of a 200 body, and the raw body
text used in the error message otherwise. -/
structure ChatResponse where
  status : Nat
  content : String
  text : String
deriving DecidableEq, Repr

/-- `app.py`'s `summarize`, with the remote SDK call as an oracle from
the message list to either the completion content or a raised error.
The second component counts remote calls issued: the function always
builds the system/user message pair from the input text and issues
exactly one call. -/
def summarize (remote : List ChatMessage → Except String String)
    (text : String) : Except String String × Nat :=
  (remote
    [⟨"system",
      "Summarize the following JSON text clearly and concisely, maximum 50 words"⟩,
     ⟨"user", text⟩], 1)

/-- The prompt `summarize_text` builds around the input text. -/
def summaryPrompt (text : String) : String :=
  "Please provide a concise summary of the following text in 200 words:\n\n"
    ++ text ++ "\n\nSummary:"

/-- `app_fixed.py`'s `summarize_text`, with the HTTP POST as an oracle.
It always issues exactly one request (counted in the second component)
with the prompt-wrapped text and `max_tokens = 500`; a 200 response
yields the content, anything else raises with the status and body. -/
def summarize_text (remote : ChatRequest → ChatResponse)
    (text : String) : Except (Nat × String) String × Nat :=
  let resp := remote ⟨[⟨"user", summaryPrompt text⟩], 500⟩
  (if resp.status = 200 then .ok resp.content
   else .error (resp.status, resp.text), 1)

/-- One item fetched by `fetch_json_texts`; the `id` and `text` keys may
be absent. -/
structure JsonItem where
  id : Option String
  text : Option String
deriving DecidableEq, Repr

/-- `app.py`'s `process_json_text`: take `text` (default empty), return
`False` when it is empty, otherwise summarize and report success, with
any summarization error caught and turned into `False`. -/
def process_json_text (remote : List ChatMessage → Except String String)
    (item : JsonItem) : Bool :=
  let text := item.text.getD ""
  if text = "" then false
  else
    match (summarize remote text).1 with
    | .ok _ => true
    | .error _ => false

/-- What one execution of `main_loop` did: how many passes over the
pipeline body ran, how many items were processed successfully, and the
total `time.sleep` duration. -/
structure MainLoopTrace where
  cycles : Nat
  successes : Nat
  sleptSeconds : Nat
deriving DecidableEq, Repr

/-- `app.py`'s `main_loop` body: the source guards the pipeline pass
with `if True:` (not a loop), so fetched items are processed once,
then the function sleeps `run_interval` seconds and returns — exactly
one cycle regardless of configuration. -/
def main_loop (run_interval : Nat) (items : List JsonItem)
    (remote : List ChatMessage → Except String String) : MainLoopTrace :=
  let successes := items.foldl
    (fun n it => if process_json_text remote it then n + 1 else n) 0
  ⟨1, successes, run_interval⟩

/-- A remote that reports `Running` on every status request. -/
def alwaysRunning : Nat → PollResponse :=
  fun _ => .ok (some "Running") none none

/-- A remote that fails with a network error on every status request. -/
def alwaysNetError : Nat → PollResponse :=
  fun _ => .netError

/-- A remote that reports `Succeeded` (with a results URL) at once. -/
def immediateSucceeded : Nat → PollResponse :=
  fun _ => .ok (some "Succeeded") (some "u1") none

/-- A remote that reports `Running` twice, then `Succeeded` with no
results URL. -/
def runningThenSucceededNoUrl : Nat → PollResponse :=
  fun i => if i < 2 then .ok (some "Running") none none
           else .ok (some "Succeeded") none none

/-- An `app_fixed.py` remote that reports `Failed` at once. -/
def fixedImmediateFailed : Nat → FixedResponse :=
  fun _ => ⟨200, some "Failed", none⟩

/-- An `app_fixed.py` remote whose first poll request returns HTTP 500. -/
def fixedHttp500 : Nat → FixedResponse :=
  fun _ => ⟨500, none, none⟩

/-- A files-listing entry of kind `Transcription` named `a.wav`. -/
def entryAWav : FileEntry :=
  ⟨some "Transcription", some "a.wav", some "u1"⟩

/-- A files-listing entry of kind `Transcription` named `call.wav`. -/
def entryCallWav : FileEntry :=
  ⟨some "Transcription", some "call.wav", some "u9"⟩

/-- A fetch oracle whose every document lacks `recognizedPhrases`. -/
def fetchNoPhrases : String → FetchResponse :=
  fun _ => ⟨200, ⟨none⟩⟩

/-- A fetch oracle whose every document has an empty phrase list. -/
def fetchEmptyPhrases : String → FetchResponse :=
  fun _ => ⟨200, ⟨some []⟩⟩

/-- A chat remote that answers 200 with fixed content `MOCK`. -/
def mockChatRemote : ChatRequest → ChatResponse :=
  fun _ => ⟨200, "MOCK", ""⟩

/-! Lemmas about the bounded poller. -/

theorem continuesResponse_iff_not_terminal (x : PollResponse) :
    continuesResponse x = !isTerminalResponse x := by
  cases x <;> simp [continuesResponse, isTerminalResponse]

theorem poll_loop_continue (interval maxAttempts r : Nat)
    (remote : Nat → PollResponse)
    (h : continuesResponse (remote 0) = true) :
    poll_transcription_loop interval maxAttempts remote (r + 1) =
      ⟨(poll_transcription_loop interval maxAttempts (fun i => remote (i + 1)) r).result,
       (poll_transcription_loop interval maxAttempts (fun i => remote (i + 1)) r).requests + 1,
       (poll_transcription_loop interval maxAttempts (fun i => remote (i + 1)) r).sleepTime + interval⟩ := by
  cases h0 : remote 0 with
  | netError => simp [poll_transcription_loop, h0]
  | ok st url err =>
    rw [h0] at h
    simp [continuesResponse] at h
    obtain ⟨h1, h2⟩ := h
    simp [poll_transcription_loop, h0, h1, h2]

theorem poll_loop_terminal_stop (interval maxAttempts r : Nat)
    (remote : Nat → PollResponse)
    (h : isTerminalResponse (remote 0) = true) :
    (poll_transcription_loop interval maxAttempts remote (r + 1)).requests = 1 ∧
    (poll_transcription_loop interval maxAttempts remote (r + 1)).sleepTime = 0 := by
  cases h0 : remote 0 with
  | netError => rw [h0] at h; simp [isTerminalResponse] at h
  | ok st url err =>
    rw [h0] at h
    simp [isTerminalResponse] at h
    rcases h with h1 | h1
    · subst h1
      cases url <;> simp [poll_transcription_loop, h0]
    · subst h1
      simp [poll_transcription_loop, h0]

theorem poll_loop_all_continue (interval maxAttempts : Nat) :
    ∀ (r : Nat) (remote : Nat → PollResponse),
      (∀ i, continuesResponse (remote i) = true) →
      poll_transcription_loop interval maxAttempts remote r =
        ⟨.timedOut maxAttempts, r, r * interval⟩ := by
  intro r
  induction r with
  | zero => intro remote _; simp [poll_transcription_loop]
  | succ r ih =>
    intro remote h
    rw [poll_loop_continue interval maxAttempts r remote (h 0),
      ih (fun i => remote (i + 1)) (fun i => h (i + 1))]
    simp [Nat.succ_mul]

theorem poll_loop_terminal_requests (interval maxAttempts : Nat) :
    ∀ (r : Nat) (remote : Nat → PollResponse) (k : Nat),
      isTerminalResponse (remote k) = true →
      (poll_transcription_loop interval maxAttempts remote r).requests ≤ k + 1 := by
  intro r
  induction r with
  | zero => intro remote k _; simp [poll_transcription_loop]
  | succ r ih =>
    intro remote k hterm
    by_cases hc : continuesResponse (remote 0) = true
    · cases k with
      | zero =>
        rw [continuesResponse_iff_not_terminal, hterm] at hc
        simp at hc
      | succ k =>
        rw [poll_loop_continue interval maxAttempts r remote hc]
        have := ih (fun i => remote (i + 1)) k hterm
        simp only []
        omega
    · have hterm0 : isTerminalResponse (remote 0) = true := by
        rw [continuesResponse_iff_not_terminal] at hc
        cases hx : isTerminalResponse (remote 0) with
        | false => rw [hx] at hc; simp at hc
        | true => rfl
      have := (poll_loop_terminal_stop interval maxAttempts r remote hterm0).1
      omega

theorem poll_loop_succeeded_no_url (interval maxAttempts : Nat) :
    ∀ (k : Nat) (remote : Nat → PollResponse) (r : Nat) (err : Option String),
      k < r →
      (∀ i, i < k → continuesResponse (remote i) = true) →
      remote k = .ok (some "Succeeded") none err →
      poll_transcription_loop interval maxAttempts remote r =
        ⟨.noUrlError, k + 1, k * interval⟩ := by
  intro k
  induction k with
  | zero =>
    intro remote r err hk _ hterm
    cases r with
    | zero => omega
    | succ r => simp [poll_transcription_loop, hterm]
  | succ k ih =>
    intro remote r err hk hpre hterm
    cases r with
    | zero => omega
    | succ r =>
      rw [poll_loop_continue interval maxAttempts r remote
        (hpre 0 (Nat.succ_pos k))]
      rw [ih (fun i => remote (i + 1)) r err (by omega)
        (fun i hi => hpre (i + 1) (Nat.succ_lt_succ hi)) hterm]
      simp [Nat.succ_mul]

/-! Lemmas about the `app_fixed.py` poller. -/

theorem poll_fixed_terminal_requests :
    ∀ (fuel : Nat) (remote : Nat → FixedResponse) (k : Nat)
      (o : FixedOutcome) (n : Nat),
      isTerminalFixed (remote k) = true →
      poll_transcription_fixed remote fuel = some (o, n) →
      n ≤ k + 1 := by
  intro fuel
  induction fuel with
  | zero =>
    intro remote k o n _ hrun
    simp [poll_transcription_fixed] at hrun
  | succ fuel ih =>
    intro remote k o n hterm hrun
    by_cases h200 : (remote 0).status = 200
    · by_cases hs : (remote 0).jobStatus = some "Succeeded"
      · simp [poll_transcription_fixed, h200, hs] at hrun
        omega
      · by_cases hf : (remote 0).jobStatus = some "Failed"
        · simp [poll_transcription_fixed, h200, hs, hf] at hrun
          omega
        · simp [poll_transcription_fixed, h200, hs, hf] at hrun
          obtain ⟨p1, p2, hrec, _, hn⟩ := hrun
          cases k with
          | zero =>
            simp [isTerminalFixed, hs, hf] at hterm
          | succ k =>
            have := ih (fun i => remote (i + 1)) k p1 p2 hterm hrec
            omega
    · simp [poll_transcription_fixed, h200] at hrun
      omega

/-! Lemmas about result extraction. -/

theorem phraseTexts_foldl_append (ps : List Phrase) :
    ∀ acc : List String,
      ps.foldl (fun acc p =>
        match p.nBest with
        | some (a :: _) => acc ++ [a.display]
        | _ => acc) acc = acc ++ specTopDisplays ps := by
  induction ps with
  | nil => intro acc; simp [specTopDisplays]
  | cons p ps ih =>
    intro acc
    cases hnb : p.nBest with
    | none => simp [hnb, specTopDisplays, List.filterMap_cons, ih]
    | some l =>
      cases l with
      | nil => simp [hnb, specTopDisplays, List.filterMap_cons, ih]
      | cons a l =>
        simp [hnb, specTopDisplays, List.filterMap_cons]
        rw [ih]
        simp [specTopDisplays]

theorem phraseTexts_eq_spec (ps : List Phrase) :
    phraseTexts ps = specTopDisplays ps := by
  simpa [phraseTexts] using phraseTexts_foldl_append ps []

theorem get_results_step_skip (fetch : String → FetchResponse)
    (st : List (String × String) × List String) (fd : FileEntry)
    (h : ¬ fd.kind = some "Transcription") :
    get_results_step fetch st fd = st := by
  simp [get_results_step, h]

theorem get_results_step_fetches (fetch : String → FetchResponse)
    (st : List (String × String) × List String) (fd : FileEntry) (u : String)
    (hk : fd.kind = some "Transcription") (hu : fd.contentUrl = some u) :
    (get_results_step fetch st fd).2 = st.2 ++ [u] := by
  by_cases hs : (fetch u).status = 200
  · cases hps : (fetch u).body.recognizedPhrases <;>
      simp [get_results_step, hk, hu, hs, hps]
  · simp [get_results_step, hk, hu, hs]

theorem get_results_foldl_filter (fetch : String → FetchResponse) :
    ∀ (values : List FileEntry) (st : List (String × String) × List String),
      values.foldl (get_results_step fetch) st =
        (values.filter (fun fd => decide (fd.kind = some "Transcription"))).foldl
          (get_results_step fetch) st := by
  intro values
  induction values with
  | nil => intro st; rfl
  | cons fd values ih =>
    intro st
    by_cases hk : fd.kind = some "Transcription"
    · simp [List.filter_cons, hk, List.foldl_cons, ih]
    · simp [List.filter_cons, hk, List.foldl_cons, ih,
        get_results_step_skip fetch st fd hk]

theorem get_results_foldl_fetched (fetch : String → FetchResponse) :
    ∀ (values : List FileEntry) (st : List (String × String) × List String),
      (values.foldl (get_results_step fetch) st).2 =
        st.2 ++ (values.filter
          (fun fd => decide (fd.kind = some "Transcription"))).filterMap
            FileEntry.contentUrl := by
  intro values
  induction values with
  | nil => intro st; simp
  | cons fd values ih =>
    intro st
    by_cases hk : fd.kind = some "Transcription"
    · cases hu : fd.contentUrl with
      | none =>
        have hstep : get_results_step fetch st fd = st := by
          simp [get_results_step, hk, hu]
        simp [List.filter_cons, hk, List.foldl_cons, hstep, ih,
          List.filterMap_cons, hu]
      | some u =>
        have hstep := get_results_step_fetches fetch st fd u hk hu
        simp [List.filter_cons, hk, List.foldl_cons, ih,
          List.filterMap_cons, hu, hstep]
    · simp [List.filter_cons, hk, List.foldl_cons, ih,
        get_results_step_skip fetch st fd hk]

/-! Claim theorems. -/

/-- C1: with `max_attempts = N` and a remote that returns `Running` on
every poll request, `app.py`'s `poll_transcription` issues exactly N
status requests, sleeps `N * poll_interval` in total, and raises the
poll-timeout error carrying the attempts consumed — it never polls
past the budget. -/
theorem poll_always_running_times_out
    (remote : Nat → PollResponse) (maxAttempts interval : Nat)
    (h : ∀ i, remote i = PollResponse.ok (some "Running") none none) :
    poll_transcription remote maxAttempts interval =
      ⟨.timedOut maxAttempts, maxAttempts, maxAttempts * interval⟩ :=
  poll_loop_all_continue interval maxAttempts maxAttempts remote
    (fun i => by rw [h i]; decide)

/-- C1 witness: three attempts against an always-`Running` remote time
out after exactly 3 requests and 6 seconds of sleep. -/
theorem poll_always_running_times_out_witness :
    poll_transcription alwaysRunning 3 2 = ⟨.timedOut 3, 3, 6⟩ :=
  poll_always_running_times_out alwaysRunning 3 2 (fun _ => rfl)

/-- C2: both pollers stop on the first terminal observation: if the k-th
response is terminal (`Succeeded` or `Failed`), `app.py`'s poller issues
at most k+1 status requests, and whenever `app_fixed.py`'s poller
returns at all it has issued at most k+1 status requests. -/
theorem poll_stops_on_first_terminal :
    (∀ (remote : Nat → PollResponse) (maxAttempts interval k : Nat),
        isTerminalResponse (remote k) = true →
        (poll_transcription remote maxAttempts interval).requests ≤ k + 1)
    ∧ (∀ (remote : Nat → FixedResponse) (fuel k : Nat)
        (o : FixedOutcome) (n : Nat),
        isTerminalFixed (remote k) = true →
        poll_transcription_fixed remote fuel = some (o, n) →
        n ≤ k + 1) := by
  constructor
  · intro remote maxAttempts interval k hterm
    exact poll_loop_terminal_requests interval maxAttempts maxAttempts
      remote k hterm
  · intro remote fuel k o n hterm hrun
    exact poll_fixed_terminal_requests fuel remote k o n hterm hrun

/-- C2 witness: a remote that succeeds at once is polled at most once by
the bounded poller, and the `app_fixed.py` poller issues exactly one
request against a remote that fails at once. -/
theorem poll_stops_on_first_terminal_witness :
    (poll_transcription immediateSucceeded 5 2).requests ≤ 0 + 1
    ∧ poll_transcription_fixed fixedImmediateFailed 3 =
        some (FixedOutcome.failed "Unknown error", 1)
    ∧ (1 : Nat) ≤ 0 + 1 :=
  ⟨poll_stops_on_first_terminal.1 immediateSucceeded 5 2 0 (by decide),
   rfl,
   poll_stops_on_first_terminal.2 fixedImmediateFailed 3 0
     (FixedOutcome.failed "Unknown error") 1 (by decide) rfl⟩

/-- C3 counterexample: in `app_fixed.py`'s poller an HTTP error on the
very first poll iteration raises immediately — one request, no retry —
even with fuel left for further attempts, refuting the claim that a
poll-iteration error is never immediately fatal. -/
theorem fixed_poll_http_error_raises_immediately :
    poll_transcription_fixed fixedHttp500 4 =
      some (FixedOutcome.httpError 500, 1) := rfl

/-- C3 amended: in the bounded poller of `app.py`, a network/HTTP error
on a poll iteration is not immediately fatal — it consumes one attempt,
one request and one sleep, after which polling continues with the rest
of the budget, and when every iteration errors the only surfaced error
is the timeout after the whole budget; in `app_fixed.py`'s poller, by
contrast, a non-200 poll response raises immediately. -/
theorem poll_transient_error_counts_and_retries :
    (∀ (remote : Nat → PollResponse) (maxAttempts interval : Nat),
        remote 0 = PollResponse.netError →
        poll_transcription remote (maxAttempts + 1) interval =
          ⟨(poll_transcription_loop interval (maxAttempts + 1)
              (fun i => remote (i + 1)) maxAttempts).result,
           (poll_transcription_loop interval (maxAttempts + 1)
              (fun i => remote (i + 1)) maxAttempts).requests + 1,
           (poll_transcription_loop interval (maxAttempts + 1)
              (fun i => remote (i + 1)) maxAttempts).sleepTime + interval⟩)
    ∧ (∀ (remote : Nat → PollResponse) (maxAttempts interval : Nat),
        (∀ i, remote i = PollResponse.netError) →
        poll_transcription remote maxAttempts interval =
          ⟨.timedOut maxAttempts, maxAttempts, maxAttempts * interval⟩)
    ∧ (∀ (remote : Nat → FixedResponse) (fuel : Nat),
        (remote 0).status ≠ 200 →
        poll_transcription_fixed remote (fuel + 1) =
          some (.httpError (remote 0).status, 1)) := by
  refine ⟨fun remote maxAttempts interval h0 => ?_,
    fun remote maxAttempts interval h => ?_,
    fun remote fuel h => ?_⟩
  · exact poll_loop_continue interval (maxAttempts + 1) maxAttempts remote
      (by rw [h0]; rfl)
  · exact poll_loop_all_continue interval maxAttempts maxAttempts remote
      (fun i => by rw [h i]; rfl)
  · simp [poll_transcription_fixed, h]

/-- C3 amended witness: two network-error iterations against a budget
of two consume the whole budget and time out with 14 seconds slept, and
the `app_fixed.py` poller surfaces a 500 poll response after exactly one
request. -/
theorem poll_transient_error_counts_and_retries_witness :
    poll_transcription alwaysNetError 2 7 = ⟨.timedOut 2, 2, 14⟩
    ∧ poll_transcription alwaysNetError 3 5 = ⟨.timedOut 3, 3, 15⟩
    ∧ poll_transcription_fixed fixedHttp500 1 =
        some (FixedOutcome.httpError 500, 1) :=
  ⟨poll_transient_error_counts_and_retries.1 alwaysNetError 1 7 rfl,
   poll_transient_error_counts_and_retries.2.1 alwaysNetError 3 5
     (fun _ => rfl),
   poll_transient_error_counts_and_retries.2.2 fixedHttp500 0 (by decide)⟩

/-- C4: for every list of recognized phrases, the extraction of
`app_fixed.py`'s `get_results` equals the space-joined top-ranked
`display` text of each phrase in document order, phrases without
alternatives skipped; an empty phrase list yields the empty string. -/
theorem extract_matches_spec_top_display (ps : List Phrase) :
    String.intercalate " " (phraseTexts ps) =
      String.intercalate " " (specTopDisplays ps)
    ∧ String.intercalate " " (phraseTexts ([] : List Phrase)) = "" :=
  ⟨by rw [phraseTexts_eq_spec], rfl⟩

/-- C5 counterexample: with a remote that answers every chat request,
summarizing the empty string still issues one remote call and returns
the remote content, refuting the claimed empty-input short-circuit. -/
theorem summarize_empty_input_calls_remote :
    (summarize_text mockChatRemote "").2 = 1
    ∧ (summarize_text mockChatRemote "").1 = Except.ok "MOCK" :=
  ⟨rfl, rfl⟩

/-- C5 amended: for every input text — including empty or
whitespace-only text — both summarization clients issue exactly one
remote call, embedding the text in the messages they send, and return
whatever the remote answers; neither short-circuits. -/
theorem summarize_always_one_call
    (remoteA : List ChatMessage → Except String String)
    (remoteB : ChatRequest → ChatResponse) (text : String) :
    (summarize remoteA text).2 = 1
    ∧ (summarize remoteA text).1 =
        remoteA
          [⟨"system",
            "Summarize the following JSON text clearly and concisely, maximum 50 words"⟩,
           ⟨"user", text⟩]
    ∧ (summarize_text remoteB text).2 = 1
    ∧ (summarize_text remoteB text).1 =
        (if (remoteB ⟨[⟨"user", summaryPrompt text⟩], 500⟩).status = 200
         then Except.ok (remoteB ⟨[⟨"user", summaryPrompt text⟩], 500⟩).content
         else Except.error
           ((remoteB ⟨[⟨"user", summaryPrompt text⟩], 500⟩).status,
            (remoteB ⟨[⟨"user", summaryPrompt text⟩], 500⟩).text)) :=
  ⟨rfl, rfl, rfl, rfl⟩

/-- C6: `app.py`'s `main_loop` guards its pipeline pass with `if True:`
instead of looping — for every configuration it executes exactly one
cycle, sleeps once, and returns, so the service does not repeat on the
run interval as the spec requires. -/
theorem main_loop_runs_single_cycle (run_interval : Nat)
    (items : List JsonItem)
    (remote : List ChatMessage → Except String String) :
    (main_loop run_interval items remote).cycles = 1
    ∧ (main_loop run_interval items remote).sleptSeconds = run_interval :=
  ⟨rfl, rfl⟩

/-- C7 counterexample: a 201 submission response without a location
header makes `app_fixed.py` crash with an unclassified AttributeError,
and a 200 response without one makes `app.py` raise a ValueError that
carries neither the HTTP status nor the body — refuting the claim that
such submissions always fail with a submission error carrying both. -/
theorem submit_missing_location_unclassified :
    transcribe_container_submit ⟨201, "", none⟩ =
      Except.error ContainerSubmitError.attributeCrash
    ∧ start_transcription ⟨200, "body", none⟩ =
      Except.error StartError.noJobUrl :=
  ⟨rfl, rfl⟩

/-- C7 amended: a non-success submission status fails with a submission
error carrying the HTTP status and body in both submit paths, and
neither path proceeds without a job handle when the location header is
absent; but in that header-absent case `app.py` raises a classified
error without status or body, and `app_fixed.py` crashes with an
unclassified attribute error. -/
theorem submit_error_classification (st : Nat) (body : String)
    (loc : Option String) :
    (400 ≤ st → start_transcription ⟨st, body, loc⟩ =
      Except.error (StartError.httpError st body))
    ∧ (st < 400 → start_transcription ⟨st, body, none⟩ =
      Except.error StartError.noJobUrl)
    ∧ (st ≠ 201 → transcribe_container_submit ⟨st, body, loc⟩ =
      Except.error (ContainerSubmitError.createFailed st body))
    ∧ transcribe_container_submit ⟨201, body, none⟩ =
      Except.error ContainerSubmitError.attributeCrash := by
  refine ⟨fun h => ?_, fun h => ?_, fun h => ?_, ?_⟩
  · simp [start_transcription, h]
  · have hn : ¬ 400 ≤ st := by omega
    simp [start_transcription, hn]
  · simp [transcribe_container_submit, h]
  · simp [transcribe_container_submit]

/-- C7 amended witness: concrete instances of all four branches. -/
theorem submit_error_classification_witness :
    start_transcription ⟨500, "oops", none⟩ =
      Except.error (StartError.httpError 500 "oops")
    ∧ start_transcription ⟨200, "ok", none⟩ =
      Except.error StartError.noJobUrl
    ∧ transcribe_container_submit ⟨500, "oops", none⟩ =
      Except.error (ContainerSubmitError.createFailed 500 "oops")
    ∧ transcribe_container_submit ⟨201, "ok", none⟩ =
      Except.error ContainerSubmitError.attributeCrash :=
  ⟨(submit_error_classification 500 "oops" none).1 (by decide),
   (submit_error_classification 200 "ok" none).2.1 (by decide),
   (submit_error_classification 500 "oops" none).2.2.1 (by decide),
   (submit_error_classification 201 "ok" none).2.2.2⟩

/-- C8 counterexample: a result document lacking `recognizedPhrases`
does not make extraction fail — `get_results` returns an empty mapping
with no error, the file silently omitted — refuting the claim that the
operation fails with an extraction error exactly when the phrase-list
field is absent. -/
theorem get_results_missing_phrases_no_error :
    get_results 200 [entryAWav] fetchNoPhrases = (Except.ok [], ["u1"]) :=
  rfl

/-- C8 amended: the extraction pass never raises for a malformed
document: a fetched document lacking `recognizedPhrases` causes the
file to be omitted from the mapping without an error, while an
empty-but-well-formed document yields an empty string for that file. -/
theorem get_results_missing_phrases_skips_file
    (fd : FileEntry) (fetch : String → FetchResponse) (u : String)
    (hk : fd.kind = some "Transcription") (hu : fd.contentUrl = some u)
    (hs : (fetch u).status = 200) :
    ((fetch u).body.recognizedPhrases = none →
      get_results 200 [fd] fetch = (Except.ok [], [u]))
    ∧ ((fetch u).body.recognizedPhrases = some [] →
      get_results 200 [fd] fetch =
        (Except.ok [(fd.name.getD "unknown", "")], [u])) := by
  constructor
  · intro hps
    simp [get_results, get_results_step, hk, hu, hs, hps]
  · intro hps
    simp [get_results, get_results_step, hk, hu, hs, hps, dictInsert,
      phraseTexts, show String.intercalate " " ([] : List String) = ""
        from rfl]

/-- C8 amended witness: the two branches at a concrete listing entry. -/
theorem get_results_missing_phrases_skips_file_witness :
    get_results 200 [entryCallWav] fetchNoPhrases = (Except.ok [], ["u9"])
    ∧ get_results 200 [entryCallWav] fetchEmptyPhrases =
        (Except.ok [("call.wav", "")], ["u9"]) :=
  ⟨(get_results_missing_phrases_skips_file entryCallWav fetchNoPhrases
      "u9" rfl rfl rfl).1 rfl,
   (get_results_missing_phrases_skips_file entryCallWav fetchEmptyPhrases
      "u9" rfl rfl rfl).2 rfl⟩

/-- C9: `get_results` ignores every listing entry whose kind is not
`Transcription`: the whole run — mapping and error behaviour — equals
the run on the `Transcription`-only sublist, and the URLs fetched are
exactly the `contentUrl`s of the `Transcription`-kind entries, in
order. -/
theorem get_results_filters_transcription_kind
    (listingStatus : Nat) (values : List FileEntry)
    (fetch : String → FetchResponse) :
    get_results listingStatus values fetch =
      get_results listingStatus
        (values.filter (fun fd => decide (fd.kind = some "Transcription")))
        fetch
    ∧ (get_results 200 values fetch).2 =
      (values.filter
        (fun fd => decide (fd.kind = some "Transcription"))).filterMap
          FileEntry.contentUrl := by
  constructor
  · by_cases hls : listingStatus = 200
    · simp [get_results, hls, get_results_foldl_filter fetch values]
    · simp [get_results, hls]
  · simp [get_results, get_results_foldl_fetched fetch values]

/-- C10: in the bounded poller, when the k-th response is `Succeeded`
without a transcription URL and all earlier responses are non-terminal,
the poll raises the missing-URL error on that very iteration: k+1
requests, the k earlier sleeps only, and the missing-URL outcome
regardless of the remaining attempt budget — not counted, not retried,
not treated as transient. -/
theorem poll_succeeded_missing_url_raises
    (remote : Nat → PollResponse) (maxAttempts interval k : Nat)
    (err : Option String) (hk : k < maxAttempts)
    (hpre : ∀ i, i < k → continuesResponse (remote i) = true)
    (hterm : remote k = PollResponse.ok (some "Succeeded") none err) :
    poll_transcription remote maxAttempts interval =
      ⟨.noUrlError, k + 1, k * interval⟩ :=
  poll_loop_succeeded_no_url interval maxAttempts k remote maxAttempts err
    hk hpre hterm

/-- C10 witness: two `Running` responses then `Succeeded` without a URL,
under a budget of 5 with interval 3: the missing-URL error after exactly
3 requests and 6 seconds slept. -/
theorem poll_succeeded_missing_url_raises_witness :
    poll_transcription runningThenSucceededNoUrl 5 3 =
      ⟨.noUrlError, 3, 6⟩ :=
  poll_succeeded_missing_url_raises runningThenSucceededNoUrl 5 3 2 none
    (by decide) (fun i hi => by interval_cases i <;> decide) rfl
